import Mathlib

set_option maxRecDepth 100000

/-! Verification development for the zyvega repository.

Byte strings are modelled as lists of natural numbers, one entry per byte.
The definitions below are shallow embeddings of the corresponding Python
functions: the ZYBL frame codec of src/gatt.py, the mesh provisioning and
device-configuration handlers of src/zyvega.py, and the generic mesh
control message builders of src/mesh_control.py and src/mesh.py. -/

/-- Translation of one iteration of the inner loop of the CRC-16/XMODEM helper in
src/gatt.py: shift left by one, xor with the polynomial 0x1021 when bit 15 was
set, and mask the result to 16 bits. -/
def crcRound (crc : Nat) : Nat :=
  if crc &&& 0x8000 ≠ 0 then ((crc <<< 1) ^^^ 0x1021) &&& 0xFFFF
  else (crc <<< 1) &&& 0xFFFF

/-- Translation of one iteration of the outer loop of the CRC-16/XMODEM helper in
src/gatt.py: xor the byte into the high half of the register, then run eight
rounds. -/
def crcByte (crc b : Nat) : Nat := crcRound^[8] (crc ^^^ (b <<< 8))

/-- Translation of the CRC-16/XMODEM helper of src/gatt.py (poly 0x1021, initial
value 0, no reflection, no final xor), processing a byte string left to right. -/
def crc16_xmodem (data : List Nat) : Nat := data.foldl crcByte 0

/-- Branch condition of crcRound, restated through testBit. -/
theorem and_8000_ne_zero_iff (x : Nat) : x &&& 0x8000 ≠ 0 ↔ x.testBit 15 = true := by
  have h : x &&& 0x8000 = (x.testBit 15).toNat * 2 ^ 15 := by
    have := Nat.and_two_pow x 15
    norm_num at this ⊢
    exact this
  rw [h]
  cases hx : x.testBit 15 <;> simp

/-- Closed form of crcRound: a masked shift xored with a bit-dependent constant. -/
theorem crcRound_eq (x : Nat) :
    crcRound x = ((x <<< 1) &&& 0xFFFF) ^^^ (if x.testBit 15 then 0x1021 else 0) := by
  unfold crcRound
  by_cases h : x.testBit 15
  · rw [if_pos ((and_8000_ne_zero_iff x).2 h), if_pos h, Nat.and_xor_distrib_right]
    congr 1
  · rw [if_neg (fun hne => h ((and_8000_ne_zero_iff x).1 hne)),
      if_neg h, Nat.xor_zero]

/-- Left shift distributes over xor on natural numbers. -/
theorem shiftLeft_xor_distrib (u v n : Nat) :
    (u ^^^ v) <<< n = (u <<< n) ^^^ (v <<< n) := by
  apply Nat.eq_of_testBit_eq
  intro i
  simp only [Nat.testBit_shiftLeft, Nat.testBit_xor]
  cases h : decide (n ≤ i) <;> simp

/-- Regrouping of a double xor. -/
theorem xor_xor_xor_comm (a b c d : Nat) :
    (a ^^^ b) ^^^ (c ^^^ d) = (a ^^^ c) ^^^ (b ^^^ d) := by
  apply Nat.eq_of_testBit_eq
  intro i
  simp only [Nat.testBit_xor]
  cases a.testBit i <;> cases b.testBit i <;> cases c.testBit i <;> cases d.testBit i <;> rfl

/-- crcRound is linear over xor: the CRC register update commutes with
superposition of inputs. -/
theorem crcRound_xor (u v : Nat) : crcRound (u ^^^ v) = crcRound u ^^^ crcRound v := by
  rw [crcRound_eq, crcRound_eq, crcRound_eq, shiftLeft_xor_distrib,
    Nat.and_xor_distrib_right, xor_xor_xor_comm]
  congr 1
  rw [Nat.testBit_xor]
  cases hu : u.testBit 15 <;> cases hv : v.testBit 15 <;> simp

/-- Iterates of crcRound are linear over xor. -/
theorem crcRound_iter_xor (n u v : Nat) :
    crcRound^[n] (u ^^^ v) = crcRound^[n] u ^^^ crcRound^[n] v := by
  induction n with
  | zero => rfl
  | succ n ih =>
    rw [Function.iterate_succ_apply', Function.iterate_succ_apply',
      Function.iterate_succ_apply', ih, crcRound_xor]

/-- One byte step of the CRC is linear over xor in both the register and the byte. -/
theorem crcByte_xor (x y a b : Nat) :
    crcByte (x ^^^ y) (a ^^^ b) = crcByte x a ^^^ crcByte y b := by
  unfold crcByte
  rw [shiftLeft_xor_distrib, xor_xor_xor_comm, crcRound_iter_xor]

/-- Outputs of crcRound always fit in 16 bits. -/
theorem crcRound_lt (x : Nat) : crcRound x < 65536 := by
  unfold crcRound
  have hm : (0xFFFF : Nat) = 2 ^ 16 - 1 := by norm_num
  split
  · rw [hm, Nat.and_pow_two_sub_one_eq_mod]
    exact Nat.mod_lt _ (by norm_num)
  · rw [hm, Nat.and_pow_two_sub_one_eq_mod]
    exact Nat.mod_lt _ (by norm_num)

/-- Nonzero 16-bit registers stay nonzero through crcRound. -/
theorem crcRound_ne_zero {x : Nat} (hlt : x < 65536) (hx : x ≠ 0) : crcRound x ≠ 0 := by
  rw [crcRound_eq]
  by_cases h : x.testBit 15
  · rw [if_pos h]
    intro habs
    have hb := congrArg (fun t => t.testBit 0) habs
    simp only [Nat.testBit_xor, Nat.testBit_and, Nat.testBit_shiftLeft,
      Nat.zero_testBit] at hb
    norm_num at hb
  · rw [if_neg h, Nat.xor_zero]
    have hm : (0xFFFF : Nat) = 2 ^ 16 - 1 := by norm_num
    rw [hm, Nat.and_pow_two_sub_one_eq_mod]
    have hx15 : x < 2 ^ 15 := by
      apply Nat.lt_pow_two_of_testBit
      intro i hi
      by_cases hei : i = 15
      · rw [hei]
        cases hb : x.testBit 15
        · rfl
        · exact absurd hb h
      · have h16 : 16 ≤ i := by omega
        apply Nat.testBit_lt_two_pow
        have hp : (2 : Nat) ^ 16 ≤ 2 ^ i := Nat.pow_le_pow_right (by norm_num) h16
        omega
    have : x <<< 1 = 2 * x := by rw [Nat.shiftLeft_eq]; ring
    rw [this, Nat.mod_eq_of_lt (by omega)]
    omega

/-- Iterates of crcRound preserve being nonzero and 16-bit bounded. -/
theorem crcRound_iter_ne_zero (n : Nat) {x : Nat} (hlt : x < 65536) (hx : x ≠ 0) :
    crcRound^[n] x ≠ 0 ∧ crcRound^[n] x < 65536 := by
  induction n with
  | zero => exact ⟨hx, hlt⟩
  | succ n ih =>
    rw [Function.iterate_succ_apply']
    exact ⟨crcRound_ne_zero ih.2 ih.1, crcRound_lt _⟩

/-- Outputs of crcByte always fit in 16 bits. -/
theorem crcByte_lt (x b : Nat) : crcByte x b < 65536 := by
  unfold crcByte
  rw [show (8 : Nat) = 7 + 1 from rfl, Function.iterate_succ_apply']
  exact crcRound_lt _

/-- CRC values always fit in 16 bits. -/
theorem crc16_xmodem_lt (data : List Nat) : crc16_xmodem data < 65536 := by
  unfold crc16_xmodem
  induction data using List.reverseRecOn with
  | nil => norm_num
  | append_singleton l b _ => rw [List.foldl_append, List.foldl_cons, List.foldl_nil]; exact crcByte_lt _ _

/-- Running the CRC over a run of zero bytes starting from register t. -/
def zeroChain : Nat → Nat → Nat
  | 0, t => t
  | n + 1, t => zeroChain n (crcByte t 0)

/-- Nonzero 16-bit registers stay nonzero through any run of zero bytes. -/
theorem zeroChain_ne_zero (n : Nat) {t : Nat} (hlt : t < 65536) (ht : t ≠ 0) :
    zeroChain n t ≠ 0 := by
  induction n generalizing t with
  | zero => exact ht
  | succ n ih =>
    have hstep : crcByte t 0 ≠ 0 ∧ crcByte t 0 < 65536 := by
      have : crcByte t 0 = crcRound^[8] t := by
        unfold crcByte
        norm_num
      rw [this]
      exact crcRound_iter_ne_zero 8 hlt ht
    exact ih hstep.2 hstep.1

/-- Folding the CRC from a perturbed register equals the unperturbed fold xored
with the perturbation pushed through a run of zero bytes. -/
theorem foldl_crcByte_xor (B : List Nat) (x t : Nat) :
    List.foldl crcByte (x ^^^ t) B = List.foldl crcByte x B ^^^ zeroChain B.length t := by
  induction B generalizing x t with
  | nil => rfl
  | cons b B ih =>
    have hstep : crcByte (x ^^^ t) b = crcByte x b ^^^ crcByte t 0 := by
      have := crcByte_xor x t b 0
      rwa [Nat.xor_zero] at this
    rw [List.foldl_cons, hstep, ih, List.foldl_cons]
    rfl

/-- Xoring a single byte of the input changes the CRC by the pattern of that
byte pushed through the remaining zero run. -/
theorem crc_fold_set (e : Nat) (ds : List Nat) : ∀ (k s : Nat), k < ds.length →
    List.foldl crcByte s (ds.set k (ds.getD k 0 ^^^ e)) =
      List.foldl crcByte s ds ^^^ zeroChain (ds.length - (k + 1)) (crcByte 0 e) := by
  induction ds with
  | nil => intro k s hk; simp at hk
  | cons d ds ih =>
    intro k s hk
    cases k with
    | zero =>
      simp only [List.set_cons_zero, List.getD_cons_zero, List.foldl_cons]
      have hstep : crcByte s (d ^^^ e) = crcByte s d ^^^ crcByte 0 e := by
        have := crcByte_xor s 0 d e
        rwa [Nat.xor_zero] at this
      rw [hstep, foldl_crcByte_xor]
      simp
    | succ k =>
      simp only [List.set_cons_succ, List.getD_cons_succ, List.foldl_cons]
      rw [ih k (crcByte s d) (by simpa using hk)]
      simp

/-- Flipping any single bit of any single byte of the input changes the
CRC-16/XMODEM value. -/
theorem crc16_flip_ne (ds : List Nat) (k j : Nat) (hk : k < ds.length) (hj : j < 8) :
    crc16_xmodem (ds.set k (ds.getD k 0 ^^^ (1 <<< j))) ≠ crc16_xmodem ds := by
  unfold crc16_xmodem
  rw [crc_fold_set (1 <<< j) ds k 0 hk]
  intro habs
  have hN : zeroChain (ds.length - (k + 1)) (crcByte 0 (1 <<< j)) = 0 := by
    have h2 := congrArg (fun t => List.foldl crcByte 0 ds ^^^ t) habs
    simpa [← Nat.xor_assoc] using h2
  have htv : crcByte 0 (1 <<< j) = crcRound^[8] (2 ^ (j + 8)) := by
    unfold crcByte
    rw [Nat.zero_xor, ← Nat.shiftLeft_add, Nat.one_shiftLeft]
  have hne : crcByte 0 (1 <<< j) ≠ 0 ∧ crcByte 0 (1 <<< j) < 65536 := by
    rw [htv]
    apply crcRound_iter_ne_zero
    · have hj16 : j + 8 < 16 := by omega
      calc 2 ^ (j + 8) < 2 ^ 16 := Nat.pow_lt_pow_right (by norm_num) hj16
        _ = 65536 := by norm_num
    · have hp : 0 < 2 ^ (j + 8) := by positivity
      omega
  exact zeroChain_ne_zero _ hne.2 hne.1 hN

/-- Two bytes of a little-endian 16-bit integer, as produced by struct.pack of a
u16 in src/gatt.py. -/
def le16 (n : Nat) : List Nat := [n % 256, n / 256 % 256]

/-- Little-endian 16-bit read at an offset, as performed by struct.unpack_from of
a u16 in src/gatt.py; out-of-range bytes read as 0 (the callers guard ranges,
and the guarded variant below models the unguarded accesses). -/
def readLE16 (l : List Nat) (off : Nat) : Nat := l.getD off 0 + 256 * l.getD (off + 1) 0

/-- Translation of zybl_frame of src/gatt.py: data section is
field1 0x0100, sequence, command id (all little-endian u16) followed by the
payload; the frame wraps it in the 0x24 0x3C header, a length byte, a zero pad
and a trailing little-endian CRC-16/XMODEM of the data section. -/
def zybl_frame (cid : Nat) (payload : List Nat) (seq : Nat) : List Nat :=
  let data_section := le16 0x0100 ++ le16 seq ++ le16 cid ++ payload
  let crc := crc16_xmodem data_section
  [0x24, 0x3C] ++ [data_section.length, 0x00] ++ data_section ++ le16 crc

/-- Translation of zybl_parse of src/gatt.py with its checks in source order:
minimum length, header, declared length versus buffer, CRC comparison, minimum
data-section length; on success the sequence, command id and payload are read
from the data section. -/
def zybl_parse (raw : List Nat) : Option (Nat × Nat × List Nat) :=
  if raw.length < 10 then none
  else if raw.take 2 ≠ [0x24, 0x3C] then none
  else
    let length := raw.getD 2 0
    if raw.length < length + 6 then none
    else
      let data_section := (raw.drop 4).take length
      let crc_received := readLE16 raw (4 + length)
      let crc_computed := crc16_xmodem data_section
      if crc_received ≠ crc_computed then none
      else if length < 6 then none
      else some (readLE16 data_section 2, readLE16 data_section 4, data_section.drop 6)

/-- Guarded little-endian u16 read: models struct.unpack_from, which raises when
fewer than two bytes remain after the offset. -/
def unpackLE16 (l : List Nat) (off : Nat) : Option Nat :=
  if off + 2 ≤ l.length then some (readLE16 l off) else none

/-- Guarded read of three consecutive little-endian u16 values: models
struct.unpack_from with format HHH, which raises when fewer than six bytes
remain after the offset. -/
def unpackLE16x3 (l : List Nat) (off : Nat) : Option (Nat × Nat × Nat) :=
  if off + 6 ≤ l.length then some (readLE16 l off, readLE16 l (off + 2), readLE16 l (off + 4)) else none

/-- Variant of zybl_parse in which every indexing and unpack operation of the
Python source is guarded: the outer none models a raised exception
(IndexError or struct.error), the inner layer is the ordinary parse result. -/
def zybl_parseChecked (raw : List Nat) : Option (Option (Nat × Nat × List Nat)) :=
  if raw.length < 10 then some none
  else if raw.take 2 ≠ [0x24, 0x3C] then some none
  else
    match raw.get? 2 with
    | none => none
    | some length =>
      if raw.length < length + 6 then some none
      else
        let data_section := (raw.drop 4).take length
        match unpackLE16 raw (4 + length) with
        | none => none
        | some crc_received =>
          if crc_received ≠ crc16_xmodem data_section then some none
          else if length < 6 then some none
          else
            match unpackLE16x3 data_section 0 with
            | none => none
            | some (_, seq, cid) => some (some (seq, cid, data_section.drop 6))

/-- Reading a getD at an index not touched by a set is unchanged. -/
theorem getD_set_ne {α : Type} (l : List α) (i k : Nat) (v d : α) (h : i ≠ k) :
    (l.set i v).getD k d = l.getD k d := by
  simp [List.getD_eq_getElem?_getD, List.getElem?_set_ne h]

/-- Taking a prefix strictly before a set index is unchanged. -/
theorem take_set_of_le {α : Type} (l : List α) (i : Nat) (v : α) (n : Nat) (h : n ≤ i) :
    (l.set i v).take n = l.take n := by
  rw [List.set_take]
  by_cases hn : n ≤ l.length
  · apply List.set_eq_of_length_le
    rw [List.length_take]
    omega
  · apply List.set_eq_of_length_le
    rw [List.length_take]
    omega

/-- Reading a getD inside a take of sufficient size is unchanged. -/
theorem getD_take_of_lt {α : Type} (l : List α) (n k : Nat) (d : α) (h : k < n) :
    (l.take n).getD k d = l.getD k d := by
  simp [List.getD_eq_getElem?_getD, List.getElem?_take_of_lt h]

/-- Shape of a parse run on an explicitly decomposed frame: fixed header, a
length byte matching the data section, a pad byte, the data section and at
least two trailing bytes. Only the CRC comparison decides the outcome. -/
theorem zybl_parse_shape (L p : Nat) (ds tl : List Nat)
    (hds : ds.length = L) (hL : 6 ≤ L) (ht : 2 ≤ tl.length) :
    zybl_parse (0x24 :: 0x3C :: L :: p :: (ds ++ tl)) =
      if readLE16 tl 0 = crc16_xmodem ds
      then some (readLE16 ds 2, readLE16 ds 4, ds.drop 6)
      else none := by
  subst hds
  have h1 : ¬ ((0x24 :: 0x3C :: ds.length :: p :: (ds ++ tl)).length < 10) := by
    simp
    omega
  have h3 : ¬ ((0x24 :: 0x3C :: ds.length :: p :: (ds ++ tl)).length < ds.length + 6) := by
    simp
    omega
  have e2 : ∀ k, (ds ++ tl).getD (ds.length + k) 0 = tl.getD k 0 := by
    intro k
    simp [List.getD_eq_getElem?_getD,
      List.getElem?_append_right (Nat.le_add_right ds.length k)]
  have hcrcr : readLE16 (0x24 :: 0x3C :: ds.length :: p :: (ds ++ tl)) (4 + ds.length)
      = readLE16 tl 0 := by
    unfold readLE16
    have f1 : (0x24 :: 0x3C :: ds.length :: p :: (ds ++ tl)).getD (4 + ds.length) 0
        = tl.getD 0 0 := by
      rw [Nat.add_comm 4 ds.length]
      simp only [List.getD_cons_succ]
      have := e2 0
      simpa using this
    have f2 : (0x24 :: 0x3C :: ds.length :: p :: (ds ++ tl)).getD (4 + ds.length + 1) 0
        = tl.getD 1 0 := by
      rw [show 4 + ds.length + 1 = ds.length + 1 + 4 by omega]
      simp only [List.getD_cons_succ]
      rw [show ds.length + 1 + 0 = ds.length + 1 by omega]
      exact e2 1
    rw [f1, f2]
  unfold zybl_parse
  rw [if_neg h1, if_neg (by simp)]
  simp only [List.getD_cons_succ, List.getD_cons_zero]
  rw [if_neg h3]
  simp only [List.drop_succ_cons, List.drop_zero]
  rw [List.take_left, hcrcr]
  by_cases hcrc : readLE16 tl 0 = crc16_xmodem ds
  · rw [if_neg (show ¬ (readLE16 tl 0 ≠ crc16_xmodem ds) from fun hne => hne hcrc),
      if_neg (show ¬ (ds.length < 6) by omega), if_pos hcrc]
  · rw [if_pos hcrc, if_neg hcrc]

/-- Declared length field of a raw frame: the byte at offset 2, as read by
zybl_parse. -/
def frameDeclaredLength (raw : List Nat) : Nat := raw.getD 2 0

/-- Declared data section of a raw frame: bytes 4 up to 4 plus the declared
length, as sliced by zybl_parse. -/
def frameDataSection (raw : List Nat) : List Nat := (raw.drop 4).take (frameDeclaredLength raw)

/-- Spec failure condition TooShort: fewer than 10 bytes. -/
def frameTooShort (raw : List Nat) : Prop := raw.length < 10

/-- Spec failure condition BadHeader: first two bytes are not 0x24 0x3C. -/
def frameBadHeader (raw : List Nat) : Prop := raw.take 2 ≠ [0x24, 0x3C]

/-- Spec failure condition Truncated: buffer shorter than declared length plus 6. -/
def frameTruncated (raw : List Nat) : Prop := raw.length < frameDeclaredLength raw + 6

/-- Spec failure condition CrcMismatch: the trailing little-endian CRC does not
equal the CRC-16/XMODEM of the declared data section. -/
def frameCrcMismatch (raw : List Nat) : Prop :=
  readLE16 raw (4 + frameDeclaredLength raw) ≠ crc16_xmodem (frameDataSection raw)

/-- Spec failure condition Malformed: the declared data section is shorter than
the fixed six-byte field, sequence and command id prefix. -/
def frameMalformed (raw : List Nat) : Prop := frameDeclaredLength raw < 6

instance (raw : List Nat) : Decidable (frameTooShort raw) :=
  inferInstanceAs (Decidable (raw.length < 10))

instance (raw : List Nat) : Decidable (frameBadHeader raw) :=
  inferInstanceAs (Decidable (raw.take 2 ≠ [0x24, 0x3C]))

instance (raw : List Nat) : Decidable (frameTruncated raw) :=
  inferInstanceAs (Decidable (raw.length < frameDeclaredLength raw + 6))

instance (raw : List Nat) : Decidable (frameCrcMismatch raw) :=
  inferInstanceAs (Decidable
    (readLE16 raw (4 + frameDeclaredLength raw) ≠ crc16_xmodem (frameDataSection raw)))

instance (raw : List Nat) : Decidable (frameMalformed raw) :=
  inferInstanceAs (Decidable (frameDeclaredLength raw < 6))

/-- Case analysis of zybl_parse: it returns none exactly when one of the five
spec failure conditions holds, and otherwise returns the fields read from the
declared data section. -/
theorem zybl_parse_none_cases (raw : List Nat) :
    (zybl_parse raw = none ↔
      frameTooShort raw ∨ frameBadHeader raw ∨ frameTruncated raw ∨
        frameCrcMismatch raw ∨ frameMalformed raw) ∧
    (¬ (frameTooShort raw ∨ frameBadHeader raw ∨ frameTruncated raw ∨
        frameCrcMismatch raw ∨ frameMalformed raw) →
      zybl_parse raw = some (readLE16 (frameDataSection raw) 2,
        readLE16 (frameDataSection raw) 4, (frameDataSection raw).drop 6)) := by
  simp only [zybl_parse, frameTooShort, frameBadHeader, frameTruncated,
    frameCrcMismatch, frameMalformed, frameDataSection, frameDeclaredLength]
  split_ifs with h1 h2 h3 h4 h5 <;> constructor <;> try tauto

/-- Claim C2: frame decoding fails exactly when one of the five spec conditions
TooShort, BadHeader, Truncated, CrcMismatch or Malformed holds on the input,
and otherwise succeeds returning the sequence, command id and payload parsed
from the declared data section. -/
theorem zybl_parse_error_taxonomy (raw : List Nat) :
    (zybl_parse raw = none ↔
      frameTooShort raw ∨ frameBadHeader raw ∨ frameTruncated raw ∨
        frameCrcMismatch raw ∨ frameMalformed raw) ∧
    (¬ (frameTooShort raw ∨ frameBadHeader raw ∨ frameTruncated raw ∨
        frameCrcMismatch raw ∨ frameMalformed raw) →
      zybl_parse raw = some (readLE16 (frameDataSection raw) 2,
        readLE16 (frameDataSection raw) 4, (frameDataSection raw).drop 6)) :=
  zybl_parse_none_cases raw

/-- Claim C10: the guarded parse never reaches a raised-exception outcome; on
every input it returns exactly the plain parse result, so every indexing and
unpack access in zybl_parse is covered by the preceding length checks. -/
theorem zybl_parse_total (raw : List Nat) : zybl_parseChecked raw = some (zybl_parse raw) := by
  simp only [zybl_parseChecked, zybl_parse]
  by_cases h10 : raw.length < 10
  · simp [h10]
  · by_cases hh : raw.take 2 ≠ [0x24, 0x3C]
    · simp [h10, hh]
    · have h2lt : 2 < raw.length := by omega
      have hg : raw.get? 2 = some (raw[2]?.getD 0) := by
        rw [List.get?_eq_getElem?, List.getElem?_eq_getElem h2lt]
        simp [List.getElem?_eq_getElem h2lt]
      rw [hg]
      have hgd : raw[2]?.getD 0 = raw.getD 2 0 := (List.getD_eq_getElem?_getD raw 2 0).symm
      by_cases htr : raw.length < raw[2]?.getD 0 + 6
      · simp [h10, hh, htr]
      · have hu1 : unpackLE16 raw (4 + raw[2]?.getD 0) =
            some (readLE16 raw (4 + raw[2]?.getD 0)) := by
          unfold unpackLE16
          rw [if_pos (by omega)]
        have hdslen : ((raw.drop 4).take (raw[2]?.getD 0)).length = raw[2]?.getD 0 := by
          rw [List.length_take, List.length_drop]
          omega
        by_cases hcrc : readLE16 raw (4 + raw[2]?.getD 0) =
            crc16_xmodem ((raw.drop 4).take (raw[2]?.getD 0))
        · by_cases hL6 : raw[2]?.getD 0 < 6
          · simp [h10, hh, htr, hu1, hcrc, hL6]
          · have hu3 : unpackLE16x3 ((raw.drop 4).take (raw[2]?.getD 0)) 0 =
                some (readLE16 ((raw.drop 4).take (raw[2]?.getD 0)) 0,
                  readLE16 ((raw.drop 4).take (raw[2]?.getD 0)) 2,
                  readLE16 ((raw.drop 4).take (raw[2]?.getD 0)) 4) := by
              unfold unpackLE16x3
              rw [if_pos (by omega)]
            simp [h10, hh, htr, hu1, hcrc, hL6, hu3]
        · simp [h10, hh, htr, hu1, hcrc]

/-- Little-endian 16-bit encode and decode round-trip for values below 2 to the 16. -/
theorem readLE16_le16 (n : Nat) (h : n < 65536) : readLE16 (le16 n) 0 = n := by
  simp [le16, readLE16]
  omega

/-- Claim C1: for command ids and sequence numbers fitting in 16 bits and
payloads of at most 249 bytes, parsing an encoded ZYBL frame succeeds and
returns exactly the original sequence, command id and payload. -/
theorem zybl_roundtrip (cid seq : Nat) (payload : List Nat)
    (hc : cid < 65536) (hs : seq < 65536) (_hp : payload.length ≤ 249) :
    zybl_parse (zybl_frame cid payload seq) = some (seq, cid, payload) := by
  unfold zybl_frame
  have hframe : [0x24, 0x3C] ++
      [(le16 0x0100 ++ le16 seq ++ le16 cid ++ payload).length, 0x00] ++
      (le16 0x0100 ++ le16 seq ++ le16 cid ++ payload) ++
      le16 (crc16_xmodem (le16 0x0100 ++ le16 seq ++ le16 cid ++ payload)) =
      0x24 :: 0x3C :: (le16 0x0100 ++ le16 seq ++ le16 cid ++ payload).length :: 0x00 ::
      ((le16 0x0100 ++ le16 seq ++ le16 cid ++ payload) ++
        le16 (crc16_xmodem (le16 0x0100 ++ le16 seq ++ le16 cid ++ payload))) := by
    simp
  rw [hframe, zybl_parse_shape _ 0x00 _ _ rfl (by simp [le16]) (by simp [le16])]
  have hcrc : readLE16 (le16 (crc16_xmodem (le16 0x0100 ++ le16 seq ++ le16 cid ++ payload))) 0
      = crc16_xmodem (le16 0x0100 ++ le16 seq ++ le16 cid ++ payload) :=
    readLE16_le16 _ (crc16_xmodem_lt _)
  rw [if_pos hcrc]
  have e2 : readLE16 (le16 0x0100 ++ le16 seq ++ le16 cid ++ payload) 2 = seq := by
    simp [le16, readLE16]
    omega
  have e4 : readLE16 (le16 0x0100 ++ le16 seq ++ le16 cid ++ payload) 4 = cid := by
    simp [le16, readLE16]
    omega
  have e6 : (le16 0x0100 ++ le16 seq ++ le16 cid ++ payload).drop 6 = payload := by
    simp [le16]
  rw [e2, e4, e6]

/-- Reading the little-endian field right after the data section of a framed
byte string. -/
theorem readLE16_cons4_append (a b c d : Nat) (ds tl : List Nat) :
    readLE16 (a :: b :: c :: d :: (ds ++ tl)) (4 + ds.length) = readLE16 tl 0 := by
  unfold readLE16
  have e2 : ∀ k, (ds ++ tl).getD (ds.length + k) 0 = tl.getD k 0 := by
    intro k
    simp [List.getD_eq_getElem?_getD,
      List.getElem?_append_right (Nat.le_add_right ds.length k)]
  have f1 : (a :: b :: c :: d :: (ds ++ tl)).getD (4 + ds.length) 0 = tl.getD 0 0 := by
    rw [Nat.add_comm 4 ds.length]
    simp only [List.getD_cons_succ]
    simpa using e2 0
  have f2 : (a :: b :: c :: d :: (ds ++ tl)).getD (4 + ds.length + 1) 0 = tl.getD 1 0 := by
    rw [show 4 + ds.length + 1 = ds.length + 1 + 4 by omega]
    simp only [List.getD_cons_succ]
    rw [show ds.length + 1 + 0 = ds.length + 1 by omega]
    exact e2 1
  rw [f1, f2]

/-- Length of the encoder data section. -/
theorem zybl_data_section_length (cid seq : Nat) (payload : List Nat) :
    (le16 0x0100 ++ le16 seq ++ le16 cid ++ payload).length = 6 + payload.length := by
  simp [le16]
  omega

/-- Counterexample for claim C3 as stated: on the frame encoding command
0x1001 with empty payload and sequence 1, the length byte at offset 2 is 6
rather than 4 plus the payload length, and the trailing CRC field is not the
CRC-16/XMODEM of sequence, command id and payload alone (the 0x0100 field is
included by the encoder). -/
theorem zybl_frame_invariant_claim_false :
    ¬ ((zybl_frame 0x1001 [] 1).getD 2 0 = 4 + ([] : List Nat).length ∧
       readLE16 (zybl_frame 0x1001 [] 1) 10 =
         crc16_xmodem (le16 1 ++ le16 0x1001 ++ ([] : List Nat))) := by
  decide

/-- Claim C3 as amended: for every frame produced by the encoder on valid
inputs, the length byte at offset 2 equals 6 plus the payload length, and the
trailing CRC-16 field equals the CRC-16/XMODEM of the 0x0100 field followed by
sequence, command id and payload (the whole data section). -/
theorem zybl_frame_invariant (cid seq : Nat) (payload : List Nat)
    (_hc : cid < 65536) (_hs : seq < 65536) (_hp : payload.length ≤ 249) :
    (zybl_frame cid payload seq).getD 2 0 = 6 + payload.length ∧
    readLE16 (zybl_frame cid payload seq) (4 + (6 + payload.length)) =
      crc16_xmodem (le16 0x0100 ++ le16 seq ++ le16 cid ++ payload) := by
  have hframe : zybl_frame cid payload seq =
      0x24 :: 0x3C :: (le16 0x0100 ++ le16 seq ++ le16 cid ++ payload).length :: 0x00 ::
      ((le16 0x0100 ++ le16 seq ++ le16 cid ++ payload) ++
        le16 (crc16_xmodem (le16 0x0100 ++ le16 seq ++ le16 cid ++ payload))) := by
    simp [zybl_frame]
  constructor
  · rw [hframe]
    simp only [List.getD_cons_succ, List.getD_cons_zero]
    exact zybl_data_section_length cid seq payload
  · rw [hframe, ← zybl_data_section_length cid seq payload, readLE16_cons4_append,
      readLE16_le16 _ (crc16_xmodem_lt _)]

/-- Flip of bit j of the byte at index i of a byte string. -/
def flipBit (raw : List Nat) (i j : Nat) : List Nat :=
  raw.set i ((raw.getD i 0) ^^^ (1 <<< j))

/-- Reading a getD after a drop looks further into the original list. -/
theorem getD_drop {α : Type} : ∀ (l : List α) (n k : Nat) (d : α),
    (l.drop n).getD k d = l.getD (n + k) d
  | _, 0, _, _ => by simp
  | [], _ + 1, _, _ => by simp
  | a :: l, n + 1, k, d => by
    simp only [List.drop_succ_cons]
    rw [getD_drop l n k d, show n + 1 + k = (n + k) + 1 by omega]
    simp [List.getD_cons_succ]

/-- Claim C4: flipping any single bit inside the data section of a frame that
parses successfully makes the parse fail, because the recomputed
CRC-16/XMODEM no longer matches the stored CRC field (CRC-16 catches all
single-bit errors). -/
theorem zybl_single_bit_corruption (raw : List Nat) (s c : Nat) (p : List Nat) (i j : Nat)
    (hparse : zybl_parse raw = some (s, c, p))
    (hi4 : 4 ≤ i) (hiL : i < 4 + frameDeclaredLength raw) (hj : j < 8) :
    zybl_parse (flipBit raw i j) = none := by
  have hnone : ¬ zybl_parse raw = none := by
    rw [hparse]
    simp
  have hcond : ¬ (frameTooShort raw ∨ frameBadHeader raw ∨ frameTruncated raw ∨
      frameCrcMismatch raw ∨ frameMalformed raw) :=
    fun hd => hnone ((zybl_parse_none_cases raw).1.mpr hd)
  have htr : ¬ frameTruncated raw := fun h => hcond (Or.inr (Or.inr (Or.inl h)))
  have hcrcOK : ¬ frameCrcMismatch raw := fun h =>
    hcond (Or.inr (Or.inr (Or.inr (Or.inl h))))
  have hL6 : raw.length ≥ frameDeclaredLength raw + 6 := by
    unfold frameTruncated at htr
    omega
  have hlen2 : frameDeclaredLength (flipBit raw i j) = frameDeclaredLength raw := by
    unfold frameDeclaredLength flipBit
    exact getD_set_ne raw i 2 _ 0 (by omega)
  have hdslen : (frameDataSection raw).length = frameDeclaredLength raw := by
    unfold frameDataSection
    rw [List.length_take, List.length_drop]
    omega
  have hgoal : List.take (frameDeclaredLength raw)
        (List.drop 4 (raw.set i (raw.getD i 0 ^^^ 1 <<< j))) =
      (List.take (frameDeclaredLength raw) (List.drop 4 raw)).set (i - 4)
        ((List.take (frameDeclaredLength raw) (List.drop 4 raw)).getD (i - 4) 0 ^^^
          1 <<< j) := by
    have hv : (List.take (frameDeclaredLength raw) (List.drop 4 raw)).getD (i - 4) 0 =
        raw.getD i 0 := by
      rw [getD_take_of_lt _ _ _ _ (show i - 4 < frameDeclaredLength raw by omega),
        getD_drop, show 4 + (i - 4) = i by omega]
    rw [hv, List.drop_set, if_neg (by omega), List.set_take]
  have hds2 : frameDataSection (flipBit raw i j) =
      (frameDataSection raw).set (i - 4)
        ((frameDataSection raw).getD (i - 4) 0 ^^^ (1 <<< j)) := by
    calc frameDataSection (flipBit raw i j)
        = List.take (frameDeclaredLength (flipBit raw i j))
            (List.drop 4 (flipBit raw i j)) := rfl
      _ = List.take (frameDeclaredLength raw)
            (List.drop 4 (raw.set i (raw.getD i 0 ^^^ 1 <<< j))) := by
            rw [hlen2]
            exact rfl
      _ = (List.take (frameDeclaredLength raw) (List.drop 4 raw)).set (i - 4)
            ((List.take (frameDeclaredLength raw) (List.drop 4 raw)).getD (i - 4) 0 ^^^
              1 <<< j) := hgoal
      _ = (frameDataSection raw).set (i - 4)
            ((frameDataSection raw).getD (i - 4) 0 ^^^ (1 <<< j)) := rfl
  have hrecv : readLE16 (flipBit raw i j) (4 + frameDeclaredLength raw) =
      readLE16 raw (4 + frameDeclaredLength raw) := by
    unfold flipBit readLE16
    rw [getD_set_ne raw i _ _ 0 (by omega), getD_set_ne raw i _ _ 0 (by omega)]
  have hflipmismatch : frameCrcMismatch (flipBit raw i j) := by
    unfold frameCrcMismatch
    rw [hlen2, hrecv, hds2]
    have hne : crc16_xmodem ((frameDataSection raw).set (i - 4)
        ((frameDataSection raw).getD (i - 4) 0 ^^^ (1 <<< j))) ≠
        crc16_xmodem (frameDataSection raw) := by
      apply crc16_flip_ne
      · rw [hdslen]
        unfold frameDeclaredLength at hiL ⊢
        omega
      · exact hj
    unfold frameCrcMismatch at hcrcOK
    intro habs
    rw [not_not] at hcrcOK
    rw [hcrcOK] at habs
    exact hne habs.symm
  exact (zybl_parse_none_cases (flipBit raw i j)).1.mpr
    (Or.inr (Or.inr (Or.inr (Or.inl hflipmismatch))))

/-- Witness for claim C1: a concrete round-trip of the brightness command with
a four-byte payload and sequence 3. -/
theorem zybl_roundtrip_witness :
    zybl_parse (zybl_frame 0x1001 [0x00, 0x00, 0x96, 0x42] 3) =
      some (3, 0x1001, [0x00, 0x00, 0x96, 0x42]) :=
  zybl_roundtrip 0x1001 3 [0x00, 0x00, 0x96, 0x42] (by decide) (by decide) (by decide)

/-- Witness for claim C2: the success case on a concrete valid frame and the
TooShort failure case on a one-byte input. -/
theorem zybl_parse_error_taxonomy_witness :
    zybl_parse (zybl_frame 0x1001 [] 1) =
      some (readLE16 (frameDataSection (zybl_frame 0x1001 [] 1)) 2,
        readLE16 (frameDataSection (zybl_frame 0x1001 [] 1)) 4,
        (frameDataSection (zybl_frame 0x1001 [] 1)).drop 6) ∧
    zybl_parse [0x00] = none :=
  ⟨(zybl_parse_error_taxonomy (zybl_frame 0x1001 [] 1)).2 (by decide),
   (zybl_parse_error_taxonomy [0x00]).1.mpr (Or.inl (by decide))⟩

/-- Witness for the amended claim C3: the length byte and CRC field of a
concrete one-byte-payload frame. -/
theorem zybl_frame_invariant_witness :
    (zybl_frame 0x1001 [0x2A] 1).getD 2 0 = 6 + [0x2A].length ∧
    readLE16 (zybl_frame 0x1001 [0x2A] 1) (4 + (6 + [0x2A].length)) =
      crc16_xmodem (le16 0x0100 ++ le16 1 ++ le16 0x1001 ++ [0x2A]) :=
  zybl_frame_invariant 0x1001 1 [0x2A] (by decide) (by decide) (by decide)

/-- Witness for claim C4: flipping bit 0 of the first data-section byte of a
concrete valid frame makes the parse fail. -/
theorem zybl_single_bit_corruption_witness :
    zybl_parse (flipBit (zybl_frame 0x1001 [] 1) 4 0) = none :=
  zybl_single_bit_corruption (zybl_frame 0x1001 [] 1) 1 0x1001 [] 4 0
    (by decide) (by decide) (by decide) (by decide)

/-- Translation of the node records kept in the nodes dictionary of
src/zyvega.py: unicast address, element count, optionally discovered vendor
model identification and the configured flag. -/
structure NodeInfo where
  unicast : Nat
  count : Nat
  company_id : Option Nat
  vendor_model_id : Option Nat
  configured : Bool
deriving DecidableEq

/-- Node registry: the nodes dictionary of MeshController keyed by device
uuid, in insertion order as a Python dict iterates. -/
abbrev Registry := List (List Nat × NodeInfo)

/-- Update of the first registry entry satisfying a predicate, as done by the
for-break loops over the nodes dictionary in src/zyvega.py. -/
def updateFirst (p : NodeInfo → Bool) (f : NodeInfo → NodeInfo) : Registry → Registry
  | [] => []
  | (k, v) :: rest => if p v then (k, f v) :: rest else (k, v) :: updateFirst p f rest

/-- Lookup of the first registry entry satisfying a predicate. -/
def findFirst (p : NodeInfo → Bool) : Registry → Option NodeInfo
  | [] => none
  | (_, v) :: rest => if p v then some v else findFirst p rest

/-- Translation of the private opcode parser of src/zyvega.py: one-byte,
two-byte and three-byte vendor opcodes distinguished by the top bits of the
first byte, returning none on empty or short input. -/
def parse_opcode : List Nat → Option Nat × List Nat
  | [] => (none, [])
  | first :: rest =>
    if first >>> 7 = 0 then (some first, rest)
    else if first >>> 6 = 2 then
      if rest.length < 1 then (none, [])
      else (some ((first <<< 8) ||| rest.getD 0 0), rest.drop 1)
    else
      if rest.length < 2 then (none, [])
      else (some ((first <<< 16) ||| ((rest.getD 0 0) <<< 8) ||| rest.getD 1 0), rest.drop 2)

/-- Run of the SIG-model loop of the composition parser: reads up to the given
count of little-endian u16 model ids, stopping early (and leaving the buffer
where it is) when fewer than two bytes remain. -/
def parseSigModels : Nat → List Nat → List Nat × List Nat
  | 0, rest => ([], rest)
  | n + 1, rest =>
    if rest.length < 2 then ([], rest)
    else
      ((readLE16 rest 0) :: (parseSigModels n (rest.drop 2)).1,
        (parseSigModels n (rest.drop 2)).2)

/-- Run of the vendor-model loop of the composition parser: reads up to the
given count of company id and model id pairs, stopping early when fewer than
four bytes remain. -/
def parseVendorModels : Nat → List Nat → List (Nat × Nat) × List Nat
  | 0, rest => ([], rest)
  | n + 1, rest =>
    if rest.length < 4 then ([], rest)
    else
      ((readLE16 rest 0, readLE16 rest 2) :: (parseVendorModels n (rest.drop 4)).1,
        (parseVendorModels n (rest.drop 4)).2)

/-- Buffer length never grows through the SIG-model loop. -/
theorem parseSigModels_length_le : ∀ (n : Nat) (rest : List Nat),
    (parseSigModels n rest).2.length ≤ rest.length
  | 0, _ => Nat.le_refl _
  | n + 1, rest => by
    unfold parseSigModels
    split
    · exact Nat.le_refl _
    · have h := parseSigModels_length_le n (rest.drop 2)
      simp only [List.length_drop] at h
      show (parseSigModels n (rest.drop 2)).2.length ≤ rest.length
      omega

/-- Buffer length never grows through the vendor-model loop. -/
theorem parseVendorModels_length_le : ∀ (n : Nat) (rest : List Nat),
    (parseVendorModels n rest).2.length ≤ rest.length
  | 0, _ => Nat.le_refl _
  | n + 1, rest => by
    unfold parseVendorModels
    split
    · exact Nat.le_refl _
    · have h := parseVendorModels_length_le n (rest.drop 4)
      simp only [List.length_drop] at h
      show (parseVendorModels n (rest.drop 4)).2.length ≤ rest.length
      omega

/-- One element of a composition data page: location, SIG model ids and vendor
models, as printed and collected by the element loop of src/zyvega.py. -/
structure CompElement where
  location : Nat
  sigModels : List Nat
  vendorModels : List (Nat × Nat)
deriving DecidableEq

/-- Fuel-driven element loop of the composition parser. The loop of the Python
source consumes at least four bytes per iteration, so fuel equal to the buffer
length always suffices and the fuel never runs out before the length check
stops the loop; fuel keeps the recursion structural. -/
def parseElementsGo : Nat → List Nat → List CompElement
  | 0, _ => []
  | fuel + 1, rest =>
    if rest.length < 4 then []
    else
      { location := readLE16 rest 0,
        sigModels := (parseSigModels (rest.getD 2 0) (rest.drop 4)).1,
        vendorModels := (parseVendorModels (rest.getD 3 0)
          (parseSigModels (rest.getD 2 0) (rest.drop 4)).2).1 } ::
      parseElementsGo fuel (parseVendorModels (rest.getD 3 0)
        (parseSigModels (rest.getD 2 0) (rest.drop 4)).2).2

/-- Translation of the element loop of the composition parser of src/zyvega.py:
while bytes remain, read location, SIG model count and vendor model count,
then the SIG and vendor model lists, breaking when a header no longer fits. -/
def parseElements (rest : List Nat) : List CompElement :=
  parseElementsGo rest.length rest

/-- Page byte of a composition data status payload. -/
def compositionPage (params : List Nat) : Nat := params.getD 0 0

/-- Company id field of a composition data status payload. -/
def compositionCID (params : List Nat) : Nat := readLE16 params 1

/-- Product id field of a composition data status payload. -/
def compositionPID (params : List Nat) : Nat := readLE16 params 3

/-- Version id field of a composition data status payload. -/
def compositionVID (params : List Nat) : Nat := readLE16 params 5

/-- Replay protection list size field of a composition data status payload. -/
def compositionCRPL (params : List Nat) : Nat := readLE16 params 7

/-- Feature bitmap field of a composition data status payload. -/
def compositionFeatures (params : List Nat) : Nat := readLE16 params 9

/-- Vendor models collected across all elements, in discovery order, as the
vendor_models list accumulated by the element loop of src/zyvega.py. -/
def compositionVendorModels (params : List Nat) : List (Nat × Nat) :=
  ((parseElements (params.drop 11)).map CompElement.vendorModels).flatten

/-- Observable effects of the configuration message handler of src/zyvega.py:
outgoing requests and reported conditions. -/
inductive CfgAction where
  | addAppKey (unicast : Nat)
  | bindModel (unicast company_id model_id : Nat)
  | appKeyError (status : Nat)
  | bindError (status : Nat)
  | compTooShort
  | noVendorModel
  | emptyMessage
  | otherOpcode (opcode : Nat)
deriving DecidableEq

/-- Translation of the composition-data branch of src/zyvega.py: reject
payloads shorter than 11 bytes, parse the elements, store the first vendor
model on the first node whose unicast matches the source and proceed with app
key distribution; report when no vendor model exists. -/
def handle_composition_data (nodes : Registry) (source : Nat) (params : List Nat) :
    Registry × List CfgAction :=
  if params.length < 11 then (nodes, [CfgAction.compTooShort])
  else
    match (compositionVendorModels params).head? with
    | some (vcid, vmid) =>
      (updateFirst (fun n => n.unicast == source)
        (fun n => { n with company_id := some vcid, vendor_model_id := some vmid }) nodes,
       [CfgAction.addAppKey source])
    | none => (nodes, [CfgAction.noVendorModel])

/-- Translation of the device-key message dispatcher of src/zyvega.py:
composition data status triggers the composition handler; an app-key status of
zero triggers the vendor-model bind for the first matching node with a known
company id while a non-zero status only reports the error; a bind status of
zero marks the first matching node configured while a non-zero status only
reports the error; node-reset status and unknown opcodes only log. -/
def on_dev_key_message_received (nodes : Registry) (source : Nat) (data : List Nat) :
    Registry × List CfgAction :=
  match parse_opcode data with
  | (none, _) => (nodes, [CfgAction.emptyMessage])
  | (some opcode, params) =>
    if opcode = 0x0002 then handle_composition_data nodes source params
    else if opcode = 0x8003 then
      if params.getD 0 0xFF = 0 then
        match findFirst (fun n => n.unicast == source && n.company_id.isSome) nodes with
        | some info =>
          (nodes, [CfgAction.bindModel source (info.company_id.getD 0)
            (info.vendor_model_id.getD 0)])
        | none => (nodes, [])
      else (nodes, [CfgAction.appKeyError (params.getD 0 0xFF)])
    else if opcode = 0x803E then
      if params.getD 0 0xFF = 0 then
        (updateFirst (fun n => n.unicast == source)
          (fun n => { n with configured := true }) nodes, [])
      else (nodes, [CfgAction.bindError (params.getD 0 0xFF)])
    else if opcode = 0x804A then (nodes, [])
    else (nodes, [CfgAction.otherOpcode opcode])

/-- Translation of the in-memory state of MeshController in src/zyvega.py that
the provisioning workflow touches: whether the management interface is
attached, the scan result list (rssi and advertised data per entry), the node
registry, the next unicast address and the in-flight provisioning uuid. -/
structure MeshState where
  attached : Bool
  scanResults : List (Int × List Nat)
  nodes : Registry
  nextUnicast : Nat
  provUuid : Option (List Nat)
deriving DecidableEq

/-- Translation of the next-unicast computation of the load-state routine of
src/zyvega.py: starting from 2, for each stored node in order, if its unicast
is at least the current value the value becomes that unicast plus one. The
element count of the node is not consulted. -/
def loadNextUnicast (nodes : Registry) : Nat :=
  nodes.foldl (fun nx kv => if kv.2.unicast ≥ nx then kv.2.unicast + 1 else nx) 2

/-- Translation of the state of a MeshController right after construction and
load-state on a persisted node table, before attaching. -/
def load_state (persisted : Registry) : MeshState :=
  { attached := false, scanResults := [], nodes := persisted,
    nextUnicast := loadNextUnicast persisted, provUuid := none }

/-- Outgoing request of the provisioning workflow. -/
inductive ProvAction where
  | addNode (uuid : List Nat)
deriving DecidableEq

/-- Translation of provision_device of src/zyvega.py: nothing happens when not
attached or when the index is out of range; otherwise the first 16 bytes of
the scan entry become the in-flight uuid and an AddNode request is issued.
No in-flight check is performed. -/
def provision_device (s : MeshState) (index : Nat) : MeshState × Option ProvAction :=
  if s.attached = false then (s, none)
  else if h : index < s.scanResults.length then
    ({ s with provUuid := some ((s.scanResults.get ⟨index, h⟩).2.take 16) },
      some (ProvAction.addNode ((s.scanResults.get ⟨index, h⟩).2.take 16)))
  else (s, none)

/-- Translation of the prov-data request callback of src/zyvega.py: answer
with net index 0 and the current next unicast address, leaving state alone. -/
def on_request_prov_data (s : MeshState) (_count : Nat) : Nat × Nat :=
  (0, s.nextUnicast)

/-- Assignment into a Python dict: replace the value of an existing key in
place, otherwise append the new binding. -/
def dictSet (m : Registry) (k : List Nat) (v : NodeInfo) : Registry :=
  match m with
  | [] => [(k, v)]
  | (k2, v2) :: rest => if k2 = k then (k, v) :: rest else (k2, v2) :: dictSet rest k v

/-- Translation of the add-node completion callback of src/zyvega.py: record
the node unconfigured, advance the next unicast past the full address range of
the new node, and clear the in-flight uuid. -/
def on_add_node_complete (s : MeshState) (uuid : List Nat) (unicast count : Nat) : MeshState :=
  { s with
    nodes := dictSet s.nodes uuid
      { unicast := unicast, count := count, company_id := none,
        vendor_model_id := none, configured := false },
    nextUnicast := unicast + count,
    provUuid := none }

/-- Translation of the add-node failure callback of src/zyvega.py: only the
in-flight uuid is cleared. -/
def on_add_node_failed (s : MeshState) : MeshState :=
  { s with provUuid := none }

/-- One whole provisioning handshake against an honest daemon: the daemon asks
for provisioning data, receives the offered unicast address, and completes
with that address and the element count of the device. -/
def provisionRound (s : MeshState) (uuid : List Nat) (count : Nat) : MeshState :=
  on_add_node_complete s uuid (on_request_prov_data s count).2 count

/-- Overlap test between the element address ranges of two nodes. -/
def rangesOverlap (a b : NodeInfo) : Bool :=
  decide (a.unicast < b.unicast + b.count) && decide (b.unicast < a.unicast + a.count)

/-- Pairwise disjointness of the address ranges of all registered nodes. -/
def pairwiseDisjoint : Registry → Bool
  | [] => true
  | (_, v) :: rest =>
    rest.all (fun kv => !(rangesOverlap v kv.2)) && pairwiseDisjoint rest

/-- Claim C5, failing scenario: provision a two-element device onto a fresh
network (it receives unicast 2 and the next unicast becomes 4), persist and
reload the node table as on process restart, and provision a one-element
device. After the reload the next unicast is 3, inside the range claimed by
the first node, so the second node is created at address 3 and the two ranges
overlap; the total is also below 2 plus the sum of element counts. -/
theorem unicast_reload_overlap_bug :
    (load_state (provisionRound (load_state []) [1] 2).nodes).nextUnicast = 3 ∧
    pairwiseDisjoint (provisionRound
      (load_state (provisionRound (load_state []) [1] 2).nodes) [2] 1).nodes = false ∧
    (provisionRound (load_state (provisionRound (load_state []) [1] 2).nodes)
      [2] 1).nextUnicast < 2 + (2 + 1) := by
  decide

/-- Demonstration state for claim C6: attached, one scan result, and a
provisioning attempt already in flight for a different uuid. -/
def inflightDemoState : MeshState :=
  { attached := true,
    scanResults := [(-40, [9, 9, 9, 9, 9, 9, 9, 9, 9, 9, 9, 9, 9, 9, 9, 9])],
    nodes := [], nextUnicast := 2,
    provUuid := some [1, 1, 1, 1, 1, 1, 1, 1, 1, 1, 1, 1, 1, 1, 1, 1] }

/-- Counterexample for claim C6 as stated: while a provisioning attempt is in
flight, a second provision_device call does not fail: it issues a second
AddNode request and overwrites the in-flight target uuid. -/
theorem provision_inflight_claim_false :
    (provision_device inflightDemoState 0).2 =
      some (ProvAction.addNode [9, 9, 9, 9, 9, 9, 9, 9, 9, 9, 9, 9, 9, 9, 9, 9]) ∧
    (provision_device inflightDemoState 0).1.provUuid =
      some [9, 9, 9, 9, 9, 9, 9, 9, 9, 9, 9, 9, 9, 9, 9, 9] ∧
    inflightDemoState.provUuid ≠
      some [9, 9, 9, 9, 9, 9, 9, 9, 9, 9, 9, 9, 9, 9, 9, 9] := by
  decide

/-- Claim C6 as amended: provision_device performs no in-flight check. Whenever
the controller is attached and the index is valid, the call captures the
target uuid and issues an AddNode request, regardless of the in-flight state;
no ProvisioningInProgress error exists in the code. -/
theorem provision_no_inflight_guard (s : MeshState) (index : Nat)
    (hA : s.attached = true) (h : index < s.scanResults.length) :
    (provision_device s index).2 =
      some (ProvAction.addNode ((s.scanResults.get ⟨index, h⟩).2.take 16)) ∧
    (provision_device s index).1.provUuid =
      some ((s.scanResults.get ⟨index, h⟩).2.take 16) := by
  unfold provision_device
  rw [if_neg (by rw [hA]; simp), dif_pos h]
  exact ⟨rfl, rfl⟩

/-- Witness for the amended claim C6: the demonstration state with a valid
index. -/
theorem provision_no_inflight_guard_witness :
    (provision_device inflightDemoState 0).2 =
      some (ProvAction.addNode
        ((inflightDemoState.scanResults.get ⟨0, by decide⟩).2.take 16)) ∧
    (provision_device inflightDemoState 0).1.provUuid =
      some ((inflightDemoState.scanResults.get ⟨0, by decide⟩).2.take 16) :=
  provision_no_inflight_guard inflightDemoState 0 (by decide) (by decide)

/-- Example composition-data status payload quoted by the spec: page byte,
fixed header, then element bytes. -/
def exampleCompositionBytes : List Nat :=
  [0x00, 0xF1, 0x05, 0x01, 0x00, 0x01, 0x00, 0x00, 0x80, 0x00, 0x00,
   0x00, 0x00, 0x00, 0x01, 0x01, 0x00, 0x05, 0x09, 0x80, 0x03]

/-- Counterexample for claim C8 as stated: on the example bytes the parsed VID
field is 1 rather than 0, and the selected control target is not the pair
companyId 0x0905, modelId 0x0380. -/
theorem composition_example_claim_false :
    ¬ (compositionVID exampleCompositionBytes = 0 ∧
       (compositionVendorModels exampleCompositionBytes).head? =
         some (0x0905, 0x0380)) := by
  decide

/-- Claim C8 as amended: the example bytes parse to CID 0x05F1, PID 1, VID 1,
CRPL 0x8000, features 0, one element at location 0 with no SIG models and one
vendor model, and the selected control target stored on the matching node is
company id 0x0001, model id 0x0905 (the 0x0905 bytes land in the model id
position of the spec layout only after the two extra bytes 0x01 0x00 that the
example carries before them). -/
theorem composition_example_parse :
    compositionPage exampleCompositionBytes = 0 ∧
    compositionCID exampleCompositionBytes = 0x05F1 ∧
    compositionPID exampleCompositionBytes = 1 ∧
    compositionVID exampleCompositionBytes = 1 ∧
    compositionCRPL exampleCompositionBytes = 0x8000 ∧
    compositionFeatures exampleCompositionBytes = 0 ∧
    parseElements (exampleCompositionBytes.drop 11) =
      [{ location := 0, sigModels := [], vendorModels := [(0x0001, 0x0905)] }] ∧
    handle_composition_data
        [([0x42],
          { unicast := 5, count := 1, company_id := none,
            vendor_model_id := none, configured := false })]
        5 exampleCompositionBytes =
      ([([0x42],
          { unicast := 5, count := 1, company_id := some 0x0001,
            vendor_model_id := some 0x0905, configured := false })],
        [CfgAction.addAppKey 5]) := by
  decide

/-- Two bytes of a struct.pack of a signed 16-bit little-endian integer: the
value is reduced to its two's-complement 16-bit representation. -/
def int16LEbytes (v : Int) : List Nat :=
  [((v % 65536).toNat) % 256, ((v % 65536).toNat) / 256]

namespace MeshLightController

/-- Translation of the payload built by set_power of src/mesh_control.py: the
on-off byte followed by a transaction id byte that is the constant 0. -/
def set_power_payload (o : Bool) : List Nat :=
  [if o then 1 else 0, 0]

/-- Translation of the payload built by the generic-level helper of
src/mesh_control.py: the level as signed 16-bit little-endian followed by the
transaction id byte masked to 8 bits. -/
def generic_level_payload (level : Int) (tid : Nat) : List Nat :=
  int16LEbytes level ++ [tid &&& 0xFF]

/-- Payload sent by set_brightness of src/mesh_control.py: it calls the
generic-level helper without a transaction id argument, so the default 0 is
used. The level value itself is computed from the percentage by floating
point arithmetic in the source and is kept abstract here; the transaction id
flow is exact. -/
def set_brightness_payload (level : Int) : List Nat :=
  generic_level_payload level 0

end MeshLightController

namespace ZyvegaMesh

/-- Translation of the access payload built by set_power of src/mesh.py:
opcode 0x8203 packed little-endian, the on-off byte, and a transaction id
byte that is the constant 0. -/
def set_power_data (o : Bool) : List Nat :=
  [0x03, 0x82, if o then 1 else 0, 0]

/-- Translation of the access payload built by set_brightness of src/mesh.py:
opcode 0x8206 packed little-endian, the level as signed 16-bit little-endian,
and a transaction id byte that is the constant 0. The level value is computed
by floating point arithmetic in the source and is kept abstract here. -/
def set_brightness_data (level : Int) : List Nat :=
  [0x06, 0x82] ++ int16LEbytes level ++ [0]

end ZyvegaMesh

/-- Counterexample for claim C9 as stated: two consecutive set_power calls to
the same destination carry equal transaction id bytes (both are 0), in both
the mesh_control and the mesh implementations, and set_brightness does the
same; no counter is incremented anywhere. -/
theorem generic_tid_claim_false :
    (MeshLightController.set_power_payload true).getD 1 0xFF =
      (MeshLightController.set_power_payload true).getD 1 0xFF ∧
    (MeshLightController.set_power_payload true).getD 1 0xFF = 0 ∧
    (MeshLightController.set_brightness_payload 100).getD 2 0xFF =
      (MeshLightController.set_brightness_payload 50).getD 2 0xFF ∧
    (ZyvegaMesh.set_power_data true).getD 3 0xFF =
      (ZyvegaMesh.set_power_data false).getD 3 0xFF := by
  decide

/-- Claim C9 as amended: every Generic OnOff and Generic Level message built by
the controllers carries a one-byte transaction id that is always 0; there is
no per-destination counter, so any two consecutive set_power or
set_brightness calls to the same node produce equal transaction id bytes. -/
theorem generic_tid_always_zero (o o2 : Bool) (level level2 : Int) :
    (MeshLightController.set_power_payload o).getD 1 0xFF = 0 ∧
    (MeshLightController.set_brightness_payload level).getD 2 0xFF = 0 ∧
    (ZyvegaMesh.set_power_data o).getD 3 0xFF = 0 ∧
    (ZyvegaMesh.set_brightness_data level).getD 4 0xFF = 0 ∧
    (MeshLightController.set_power_payload o).getD 1 0xFF =
      (MeshLightController.set_power_payload o2).getD 1 0xFF ∧
    (MeshLightController.set_brightness_payload level).getD 2 0xFF =
      (MeshLightController.set_brightness_payload level2).getD 2 0xFF := by
  refine ⟨rfl, rfl, rfl, rfl, rfl, rfl⟩

/-- Opcode parse of a composition-data status message: first byte 0x02 is a
one-byte opcode. -/
theorem parse_opcode_comp (params : List Nat) :
    parse_opcode (0x02 :: params) = (some 0x0002, params) := rfl

/-- Opcode parse of an app-key status message: bytes 0x80 0x03 form the
two-byte opcode 0x8003 and the status byte remains as parameter. -/
theorem parse_opcode_appkey_status (status : Nat) :
    parse_opcode [0x80, 0x03, status] = (some 0x8003, [status]) := by
  show parse_opcode (0x80 :: [0x03, status]) = (some 0x8003, [status])
  rw [parse_opcode]
  rw [if_neg (by decide), if_pos (by decide),
    if_neg (show ¬ ([0x03, status].length < 1) by simp)]
  show (some ((0x80 <<< 8) ||| 0x03), [status]) = (some 0x8003, [status])
  rw [show (0x80 <<< 8) ||| (0x03 : Nat) = 0x8003 by decide]

/-- Effect of a composition-data status carrying at least one vendor model:
the first matching node learns the first vendor model and an AddAppKey
request goes out; nothing else changes. -/
theorem composition_step (nodes : Registry) (source : Nat) (params : List Nat)
    (hlen : 11 ≤ params.length) (vcid vmid : Nat)
    (hvm : (compositionVendorModels params).head? = some (vcid, vmid)) :
    on_dev_key_message_received nodes source (0x02 :: params) =
      (updateFirst (fun n => n.unicast == source)
        (fun n => { n with company_id := some vcid, vendor_model_id := some vmid }) nodes,
       [CfgAction.addAppKey source]) := by
  have hred : on_dev_key_message_received nodes source (0x02 :: params) =
      handle_composition_data nodes source params := rfl
  rw [hred]
  unfold handle_composition_data
  rw [if_neg (by omega), hvm]

/-- Effect of an app-key status message with non-zero status: the registry is
left untouched and only the error is reported; in particular no bind request
is emitted. -/
theorem appkey_status_error_step (nodes : Registry) (source status : Nat)
    (hst : status ≠ 0) :
    on_dev_key_message_received nodes source [0x80, 0x03, status] =
      (nodes, [CfgAction.appKeyError status]) := by
  obtain ⟨k, rfl⟩ := Nat.exists_eq_succ_of_ne_zero hst
  unfold on_dev_key_message_received
  rw [parse_opcode_appkey_status]
  rfl

/-- Storing a vendor model on a node never touches its configured flag. -/
theorem updateFirst_map_configured (p : NodeInfo → Bool) (vcid vmid : Nat) :
    ∀ (m : Registry),
      (updateFirst p
          (fun n => { n with company_id := some vcid, vendor_model_id := some vmid })
          m).map (fun kv => kv.2.configured) =
        m.map (fun kv => kv.2.configured)
  | [] => rfl
  | (k, v) :: rest => by
    unfold updateFirst
    split
    · simp
    · simp [updateFirst_map_configured p vcid vmid rest]

/-- Claim C7: after a composition-data response containing a vendor model, an
application-key-status response with non-zero status halts the configuration
in place: the second step leaves the registry exactly as it was and reports
only the app-key failure with that status, the first step emitted only the
AddAppKey request (so a bind request is never sent), and the configured flag
of every node is the same as before both steps. -/
theorem appkey_failure_halts (nodes : Registry) (source : Nat) (params : List Nat)
    (status : Nat)
    (hlen : 11 ≤ params.length)
    (hvm : (compositionVendorModels params).head?.isSome = true)
    (hst : status ≠ 0) :
    (on_dev_key_message_received
        (on_dev_key_message_received nodes source (0x02 :: params)).1
        source [0x80, 0x03, status]) =
      ((on_dev_key_message_received nodes source (0x02 :: params)).1,
        [CfgAction.appKeyError status]) ∧
    (on_dev_key_message_received nodes source (0x02 :: params)).2 =
      [CfgAction.addAppKey source] ∧
    ((on_dev_key_message_received nodes source (0x02 :: params)).1.map
        (fun kv => kv.2.configured)) = nodes.map (fun kv => kv.2.configured) := by
  obtain ⟨⟨vcid, vmid⟩, hvm2⟩ := Option.isSome_iff_exists.mp hvm
  have h1 := composition_step nodes source params hlen vcid vmid hvm2
  refine ⟨?_, ?_, ?_⟩
  · rw [h1]
    exact appkey_status_error_step _ source status hst
  · rw [h1]
  · rw [h1]
    exact updateFirst_map_configured _ vcid vmid nodes

/-- Demonstration registry for the C7 witness: one unconfigured node at
unicast 5. -/
def appkeyDemoRegistry : Registry :=
  [([0x42],
    { unicast := 5, count := 1, company_id := none,
      vendor_model_id := none, configured := false })]

/-- Witness for claim C7: the example composition bytes followed by an app-key
status of 1 on the demonstration registry. -/
theorem appkey_failure_halts_witness :
    (on_dev_key_message_received
        (on_dev_key_message_received appkeyDemoRegistry 5 (0x02 :: exampleCompositionBytes)).1
        5 [0x80, 0x03, 1]) =
      ((on_dev_key_message_received appkeyDemoRegistry 5 (0x02 :: exampleCompositionBytes)).1,
        [CfgAction.appKeyError 1]) ∧
    (on_dev_key_message_received appkeyDemoRegistry 5 (0x02 :: exampleCompositionBytes)).2 =
      [CfgAction.addAppKey 5] ∧
    ((on_dev_key_message_received appkeyDemoRegistry 5 (0x02 :: exampleCompositionBytes)).1.map
        (fun kv => kv.2.configured)) = appkeyDemoRegistry.map (fun kv => kv.2.configured) :=
  appkey_failure_halts appkeyDemoRegistry 5 exampleCompositionBytes 1
    (by decide) (by decide) (by decide)
